import Mathlib

/-
  Verification development for the `binocular` interactive picker.

  Shallow embedding of the core of the program:
    * the ripgrep-output parsing loop of `src/app.rs::execute_rg`
      (data model in `src/rg_item.rs`),
    * the parallel parsing loop of `src/pickers/grep.rs::GrepPicker::handle_input_change`,
    * the dispatcher behaviour of `execute_rg` around the subprocess call,
    * the application/selection state machine of `src/app.rs::App`.

  Machine integers are modelled as `Nat` with explicit `% 2 ^ 16` where the
  source performs `u16` arithmetic that can wrap; `HashMap<u16, &str>` is
  modelled as `Nat → Option String`.
-/

namespace Binocular

/-! ### String helpers mirroring the Rust standard library -/

/-- Models Rust `str::split(c)` on the character list: splits at every
occurrence of `c`, keeping empty segments, always returning at least one
segment. -/
def splitChar (c : Char) : List Char → List (List Char)
  | [] => [[]]
  | x :: xs =>
    let r := splitChar c xs
    if x = c then [] :: r else
      match r with
      | y :: ys => (x :: y) :: ys
      | [] => [[x]]

/-- Models `output.split('\n')` in `execute_rg`: the stdout text as a list of
lines, with a trailing empty segment when the text ends in a newline. -/
def splitNl (s : String) : List String :=
  (splitChar '\n' s.data).map fun l => String.mk l

/-- Models Rust `str::split_once(c)` on the character list: the parts strictly
before and strictly after the first occurrence of `c`, or `none` when `c` does
not occur. -/
def splitOnceList (c : Char) : List Char → Option (List Char × List Char)
  | [] => none
  | x :: xs =>
    if x = c then some ([], xs)
    else (splitOnceList c xs).map fun p => (x :: p.1, p.2)

/-- Models Rust `str::split_once(c)`. -/
def splitOnce (s : String) (c : Char) : Option (String × String) :=
  (splitOnceList c s.data).map fun p => (String.mk p.1, String.mk p.2)

/-- Decimal value of a digit string. -/
def digitsToNat (l : List Char) : Nat :=
  l.foldl (fun acc c => acc * 10 + (c.toNat - 48)) 0

/-- The `u16` modulus. -/
def U16_MOD : Nat := 65536

/-- Models `str::parse::<u16>()` as called by the parsing loops: the call
sites only ever pass a non-empty run of ASCII digits, for which the Rust
parser succeeds exactly when the value fits in `u16`. -/
def parseU16 (s : String) : Option Nat :=
  if s.data ≠ [] ∧ s.data.all Char.isDigit then
    let n := digitsToNat s.data
    if n < U16_MOD then some n else none
  else none

/-- Models `output_line.starts_with(|c: char| c.is_ascii_digit())`. -/
def startsWithDigit (s : String) : Bool :=
  match s.data with
  | [] => false
  | c :: _ => c.isDigit

/-- Rust range `a..b` as an ascending list (empty when `b ≤ a`). -/
def rangeList (a b : Nat) : List Nat :=
  (List.range (b - a)).map (a + ·)

/-- Rust inclusive range `a..=b` as an ascending list (empty when `b < a`). -/
def rangeIncl (a b : Nat) : List Nat :=
  (List.range (b + 1 - a)).map (a + ·)

/-! ### Data model (`src/rg_item.rs`) -/

/-- Number of context lines kept before and after a matched line
(`CTX_LINES` in `src/rg_item.rs`). -/
def CTX_LINES : Nat := 4

/-- The per-block context map `HashMap<u16, &str>` of the parsing loops. -/
def Ctx : Type := Nat → Option String

/-- The empty context map (`HashMap::new` / after `ctx.clear()`). -/
def Ctx.empty : Ctx := fun _ => none

/-- Models `HashMap::insert` (overwriting any previous entry). -/
def Ctx.insert (m : Ctx) (k : Nat) (v : String) : Ctx :=
  fun k' => if k' = k then some v else m k'

/-- A match returned by ripgrep (`RgItem` in `src/rg_item.rs`). -/
structure RgItem where
  filename : String
  line_number : Nat
  matched_line : String
  context : String
deriving DecidableEq, Repr

/-- A builder for `RgItem`s (`RgItemBuilder` in `src/rg_item.rs`). -/
structure RgItemBuilder where
  filename : String
  line_number : Nat
  matched_line : String
  pre_context : List String
  post_context : List String
deriving DecidableEq, Repr

/-- Models `RgItem::builder`. -/
def RgItem.builder (filename : String) (line_number : Nat) (matched_line : String) :
    RgItemBuilder :=
  { filename := filename
    line_number := line_number
    matched_line := matched_line
    pre_context := []
    post_context := [] }

/-- Models `RgItemBuilder::add_pre_context`: pushes the context-map entries of
`line_number.saturating_sub(CTX_LINES) .. line_number` in ascending order
(`Nat` subtraction is exactly `saturating_sub`). -/
def RgItemBuilder.add_pre_context (b : RgItemBuilder) (ctx : Ctx) : RgItemBuilder :=
  { b with pre_context :=
      b.pre_context ++ (rangeList (b.line_number - CTX_LINES) b.line_number).filterMap ctx }

/-- Models `RgItemBuilder::add_post_context`: pushes the context-map entries of
the `u16` range `line_number + 1 ..= line_number + CTX_LINES` in ascending
order. The source computes both bounds in `u16`; near the top of the `u16`
range the additions overflow, which wraps under release-profile two's
complement semantics (and panics under debug assertions). The wrap is made
explicit here with `% U16_MOD`; an inclusive Rust range whose wrapped start
exceeds its wrapped end is empty. -/
def RgItemBuilder.add_post_context (b : RgItemBuilder) (ctx : Ctx) : RgItemBuilder :=
  { b with post_context :=
      b.post_context ++
        (let lo := (b.line_number + 1) % U16_MOD
         let hi := (b.line_number + CTX_LINES) % U16_MOD
         if lo ≤ hi then (rangeIncl lo hi).filterMap ctx else []) }

/-- Models `RgItemBuilder::build`: `pre_context ++ [matched_line] ++ post_context`
joined with newlines. -/
def RgItemBuilder.build (b : RgItemBuilder) : RgItem :=
  { filename := b.filename
    line_number := b.line_number
    matched_line := b.matched_line
    context :=
      String.intercalate "\n" (b.pre_context ++ [b.matched_line] ++ b.post_context) }

/-! ### The parsing loop of `execute_rg` (`src/app.rs`, lines 189–254)

The loop classifies each line exactly as the source's `if`/`match` ladder
does; `classify` packages that ladder (digit test, first character after the
digit run, `split_once`, `u16` parse), and the loop performs the source's
per-class actions. -/

/-- Outcome of the per-line ladder of the parsing loops. -/
inductive LineKind where
  /-- A digit-led line whose separator is `-`: a context line. -/
  | ctxLine (n : Nat) (t : String) : LineKind
  /-- A digit-led line whose separator is `:`: a match line. -/
  | matchLine (n : Nat) (t : String) : LineKind
  /-- A non-empty line not led by a digit: a file-name line. -/
  | header : LineKind
  /-- An empty line: a block separator. -/
  | blank : LineKind
  /-- A line on which the loop fails, with the error message it raises. -/
  | err (msg : String) : LineKind
deriving DecidableEq, Repr

/-- The per-line ladder shared verbatim by `execute_rg` (`src/app.rs`) and
`GrepPicker::handle_input_change` (`src/pickers/grep.rs`): test for a leading
ASCII digit, inspect the first character after the digit run, split at its
first occurrence, parse the digit run as `u16`. -/
def classify (line : String) : LineKind :=
  if startsWithDigit line then
    match (line.data.dropWhile Char.isDigit).head? with
    | some c =>
      if c = '-' ∨ c = ':' then
        match splitOnce line c with
        | none => .err "output line should contain the matched character"
        | some (numStr, t) =>
          match parseU16 numStr with
          | none => .err "output line should start with digits"
          | some n => if c = ':' then .matchLine n t else .ctxLine n t
      else .err ("expected a context or a matching line but found: " ++ line)
    | none => .err ("expected a context or a matching line but found: " ++ line)
  else if line = "" then .blank
  else .header

/-- Models `if let Some(builder) = builder { results.push(builder.add_post_context(&ctx).build()) }`. -/
def finalizeRg (b : Option RgItemBuilder) (ctx : Ctx) : List RgItem :=
  match b with
  | none => []
  | some b => [(b.add_post_context ctx).build]

/-- The `for output_line in output` loop of `execute_rg` (`src/app.rs`),
including the end-of-input finalization of a still-open builder. State:
remaining lines, current file, context map, open builder, accumulated
results. -/
def parseRgLoop : List String → String → Ctx → Option RgItemBuilder → List RgItem →
    Except String (List RgItem)
  | [], _, ctx, b, res => .ok (res ++ finalizeRg b ctx)
  | l :: rest, file, ctx, b, res =>
    match classify l with
    | .ctxLine n t => parseRgLoop rest file (ctx.insert n t) b res
    | .matchLine n t =>
      let ctx' := ctx.insert n t
      parseRgLoop rest file ctx'
        (some ((RgItem.builder file n t).add_pre_context ctx'))
        (res ++ finalizeRg b ctx')
    | .header => parseRgLoop rest l ctx b res
    | .blank => parseRgLoop rest file Ctx.empty b res
    | .err m => .error m

instance {ε α : Type} [DecidableEq ε] [DecidableEq α] : DecidableEq (Except ε α) :=
  fun x y =>
    match x, y with
    | .ok a, .ok b =>
      if h : a = b then isTrue (by rw [h]) else isFalse fun hh => h (by cases hh; rfl)
    | .ok _, .error _ => isFalse fun hh => Except.noConfusion hh
    | .error _, .ok _ => isFalse fun hh => Except.noConfusion hh
    | .error e, .error f =>
      if h : e = f then isTrue (by rw [h]) else isFalse fun hh => h (by cases hh; rfl)

/-- The full parser of `execute_rg` on the subprocess stdout text: split on
`'\n'`, take the first line as the file name, run the loop on the rest. -/
def parseRg (stdout : String) : Except String (List RgItem) :=
  match splitNl stdout with
  | [] => .error "first output line should be a file name"
  | file :: rest => parseRgLoop rest file Ctx.empty none []

/-! ### The parsing loop of `GrepPicker::handle_input_change`
(`src/pickers/grep.rs`, lines 142–210)

The picker module re-declares the item type, the builder and the loop; they
are embedded separately here, to be compared with the `app.rs` versions. -/

/-- A `grep` match (`GrepItem` in `src/pickers/grep.rs`). -/
structure GrepItem where
  filename : String
  line_number : Nat
  matched_line : String
  context : String
deriving DecidableEq, Repr

/-- A builder for `GrepItem`s (`GrepItemBuilder` in `src/pickers/grep.rs`). -/
structure GrepItemBuilder where
  filename : String
  line_number : Nat
  matched_line : String
  pre_context : List String
  post_context : List String
deriving DecidableEq, Repr

/-- Models `GrepItem::builder`. -/
def GrepItem.builder (filename : String) (line_number : Nat) (matched_line : String) :
    GrepItemBuilder :=
  { filename := filename
    line_number := line_number
    matched_line := matched_line
    pre_context := []
    post_context := [] }

/-- Models `GrepItemBuilder::add_pre_context` (same loop as the `RgItemBuilder`
version). -/
def GrepItemBuilder.add_pre_context (b : GrepItemBuilder) (ctx : Ctx) : GrepItemBuilder :=
  { b with pre_context :=
      b.pre_context ++ (rangeList (b.line_number - CTX_LINES) b.line_number).filterMap ctx }

/-- Models `GrepItemBuilder::add_post_context` (same `u16` window as the
`RgItemBuilder` version, wrap made explicit). -/
def GrepItemBuilder.add_post_context (b : GrepItemBuilder) (ctx : Ctx) : GrepItemBuilder :=
  { b with post_context :=
      b.post_context ++
        (let lo := (b.line_number + 1) % U16_MOD
         let hi := (b.line_number + CTX_LINES) % U16_MOD
         if lo ≤ hi then (rangeIncl lo hi).filterMap ctx else []) }

/-- Models `GrepItemBuilder::build`. -/
def GrepItemBuilder.build (b : GrepItemBuilder) : GrepItem :=
  { filename := b.filename
    line_number := b.line_number
    matched_line := b.matched_line
    context :=
      String.intercalate "\n" (b.pre_context ++ [b.matched_line] ++ b.post_context) }

/-- The builder finalization of the grep picker's loop. -/
def finalizeGrep (b : Option GrepItemBuilder) (ctx : Ctx) : List GrepItem :=
  match b with
  | none => []
  | some b => [(b.add_post_context ctx).build]

/-- The `for output_line in output` loop of `GrepPicker::handle_input_change`
(`src/pickers/grep.rs`); its per-line ladder is character-for-character the
one of `execute_rg`, embedded by the same `classify`. -/
def parseGrepLoop : List String → String → Ctx → Option GrepItemBuilder → List GrepItem →
    Except String (List GrepItem)
  | [], _, ctx, b, res => .ok (res ++ finalizeGrep b ctx)
  | l :: rest, file, ctx, b, res =>
    match classify l with
    | .ctxLine n t => parseGrepLoop rest file (ctx.insert n t) b res
    | .matchLine n t =>
      let ctx' := ctx.insert n t
      parseGrepLoop rest file ctx'
        (some ((GrepItem.builder file n t).add_pre_context ctx'))
        (res ++ finalizeGrep b ctx')
    | .header => parseGrepLoop rest l ctx b res
    | .blank => parseGrepLoop rest file Ctx.empty b res
    | .err m => .error m

/-- The full grep-picker parser on the subprocess stdout text. -/
def parseGrep (stdout : String) : Except String (List GrepItem) :=
  match splitNl stdout with
  | [] => .error "first output line should be a file name"
  | file :: rest => parseGrepLoop rest file Ctx.empty none []

/-- Field-for-field renaming of an `RgItem` into a `GrepItem`. -/
def rgItemToGrepItem (i : RgItem) : GrepItem :=
  ⟨i.filename, i.line_number, i.matched_line, i.context⟩

/-- Field-for-field renaming of an `RgItemBuilder` into a `GrepItemBuilder`. -/
def rgBuilderToGrepBuilder (b : RgItemBuilder) : GrepItemBuilder :=
  ⟨b.filename, b.line_number, b.matched_line, b.pre_context, b.post_context⟩

/-! ### Dispatcher (`execute_rg` around the subprocess call)

The one effect of `execute_rg` — the `Command::new("rg") … .output().await`
call — is supplied as a parameter: it either failed to spawn with
`ErrorKind::NotFound`, failed to spawn with another error, or produced a
stdout text. A `Bool` in the result records whether the subprocess
invocation was reached at all. -/

/-- Result of attempting the ripgrep subprocess invocation. -/
inductive SpawnOutcome where
  /-- Spawn failed with `ErrorKind::NotFound` (ripgrep binary absent). -/
  | notFound : SpawnOutcome
  /-- Spawn failed with any other I/O error carrying a message. -/
  | otherError (msg : String) : SpawnOutcome
  /-- Subprocess ran and produced this stdout text. -/
  | ran (stdout : String) : SpawnOutcome
deriving DecidableEq, Repr

/-- Models `execute_rg` (`src/app.rs`, lines 165–257): empty input returns
`Ok(vec![])` before the subprocess expression is reached (first component
`false`); otherwise the subprocess is invoked (first component `true`) and
its outcome handled as in the source. -/
def executeRg (input : String) (outcome : SpawnOutcome) :
    Bool × Except String (List RgItem) :=
  if input = "" then (false, .ok [])
  else
    (true,
      match outcome with
      | .notFound => .error "ripgrep is not installed"
      | .otherError msg => .error ("Failed to run ripgrep: " ++ msg)
      | .ran stdout => parseRg stdout)

/-- Deliveries the spawned search task pushes onto the channel
(`src/app.rs`, lines 128–136): the task sends the parsed items on success
and sends nothing when `execute_rg` returned an error (the `?` operator
leaves the async block before `tx.send`, and the task's `Result` is
dropped). -/
def taskDeliveries (input : String) (outcome : SpawnOutcome) : List (List RgItem) :=
  match (executeRg input outcome).2 with
  | .ok items => [items]
  | .error _ => []

/-! ### Application / selection state (`src/app.rs::App`) -/

/-- The application state (`App` in `src/app.rs`): the input field value, the
result list, the list selection (`ListState::selected`), and the help-overlay
flag. -/
structure AppState where
  input : String
  results : List RgItem
  selected : Option Nat
  show_help : Bool
deriving DecidableEq, Repr

/-- Models `App::new`: empty input, no results, default list state (no
selection), help hidden. -/
def AppState.init : AppState :=
  { input := "", results := [], selected := none, show_help := false }

/-- Models `App::handle_results`: unconditionally replaces the result list
and resets the list state, selecting index 0 when the new list is non-empty
and nothing when it is empty. -/
def AppState.handle_results (s : AppState) (results : List RgItem) : AppState :=
  { s with results := results
           selected := if results.isEmpty then none else some 0 }

/-- Models the `KeyCode::Up` arm of `handle_key_event` (`src/app.rs`,
lines 83–91). With no selection the `map_or` default selects 0; otherwise
index 0 wraps to `results.len() - 1`. In the source `results.len() - 1` is a
`usize` subtraction that underflows when the list is empty; the `Nat`
subtraction here agrees with it on every state with a non-empty list, and
the theorems touching this branch assume non-emptiness. -/
def AppState.moveUp (s : AppState) : AppState :=
  let j :=
    match s.selected with
    | none => 0
    | some i => if i = 0 then s.results.length - 1 else i - 1
  { s with selected := some j }

/-- Models the `KeyCode::Down` arm of `handle_key_event` (`src/app.rs`,
lines 93–100): with no selection the `map_or` default selects 0; otherwise
`i >= results.len() - 1` wraps to 0, else moves to `i + 1` (same `usize`
subtraction caveat as `moveUp`). -/
def AppState.moveDown (s : AppState) : AppState :=
  let j :=
    match s.selected with
    | none => 0
    | some i => if s.results.length - 1 ≤ i then 0 else i + 1
  { s with selected := some j }

/-- Models `App::selected_item`: `none` on an empty list, otherwise the item
at `state.selected().unwrap_or(0)`. The source indexes the vector unchecked
(panicking if the selection were out of bounds); the embedding returns the
checked lookup. -/
def AppState.selected_item (s : AppState) : Option RgItem :=
  if s.results.isEmpty then none
  else s.results.get? (s.selected.getD 0)

/-- Consumption of pending channel deliveries in arrival order: each
delivery is handled by `handle_results` (`App::run`, `src/app.rs` line 71). -/
def applyDeliveries (s : AppState) (ds : List (List RgItem)) : AppState :=
  ds.foldl AppState.handle_results s

/-- The user-visible data handed to `Tui::render` by `App::run`
(`src/app.rs`, lines 51–57): input value, one row per result (file name,
bracketed line number, matched line, from `RgItem::as_list_item`), the
selected item's context as preview (empty when nothing is selected), the
list selection and the help flag. -/
structure RenderData where
  input : String
  rows : List (String × String × String)
  preview : String
  selected : Option Nat
  show_help : Bool
deriving DecidableEq, Repr

/-- The render data of a state. -/
def AppState.renderData (s : AppState) : RenderData :=
  { input := s.input
    rows := s.results.map fun it =>
      (it.filename, " [" ++ toString it.line_number ++ "]", it.matched_line)
    preview := (s.selected_item.map RgItem.context).getD ""
    selected := s.selected
    show_help := s.show_help }

/-- Every string a rendered frame displays. -/
def RenderData.strings (r : RenderData) : List String :=
  r.input :: r.preview :: r.rows.foldr (fun t acc => t.1 :: t.2.1 :: t.2.2 :: acc) []

/-- States reachable from `AppState.init` by the selection operations and
list replacement, exactly as the claim quantifies them. -/
inductive Reachable : AppState → Prop where
  | init : Reachable AppState.init
  | up {s : AppState} : Reachable s → Reachable s.moveUp
  | down {s : AppState} : Reachable s → Reachable s.moveDown
  | replace {s : AppState} (l : List RgItem) : Reachable s → Reachable (s.handle_results l)

/-- States reachable from `AppState.init` when navigation is only performed
while the result list is non-empty (list replacement is unrestricted). -/
inductive GuardedReachable : AppState → Prop where
  | init : GuardedReachable AppState.init
  | up {s : AppState} : GuardedReachable s → s.results ≠ [] → GuardedReachable s.moveUp
  | down {s : AppState} : GuardedReachable s → s.results ≠ [] → GuardedReachable s.moveDown
  | replace {s : AppState} (l : List RgItem) :
      GuardedReachable s → GuardedReachable (s.handle_results l)

/-- First record of a parse outcome, when the parse succeeded with a
non-empty record list. -/
def firstResult (e : Except String (List RgItem)) : Option RgItem :=
  match e with
  | .ok (r :: _) => some r
  | _ => none

/-- A sample match record for concrete scenarios. -/
def sampleItem (n : Nat) : RgItem :=
  { filename := "f.rs", line_number := n, matched_line := "m", context := "m" }

/-- A concrete 5-element result list. -/
def fiveItems : List RgItem :=
  [sampleItem 1, sampleItem 2, sampleItem 3, sampleItem 4, sampleItem 5]

/-- A concrete state displaying one prior result. -/
def priorState : AppState :=
  { input := "x", results := [sampleItem 1], selected := some 0, show_help := false }

/-- Every key the context map binds lies strictly above `lo`. -/
def CtxDom (C : Ctx) (lo : Nat) : Prop :=
  ∀ k v, C k = some v → lo < k

/-! ### Helper lemmas -/

theorem mem_rangeList_lt {a b k : Nat} (h : k ∈ rangeList a b) : k < b := by
  simp only [rangeList, List.mem_map, List.mem_range] at h
  obtain ⟨j, hj, rfl⟩ := h
  omega

theorem mem_rangeIncl_le {a b k : Nat} (h : k ∈ rangeIncl a b) : k ≤ b := by
  simp only [rangeIncl, List.mem_map, List.mem_range] at h
  obtain ⟨j, hj, rfl⟩ := h
  omega

theorem CtxDom.empty (lo : Nat) : CtxDom Ctx.empty lo := by
  intro k v h
  simp [Ctx.empty] at h

theorem CtxDom.insert {C : Ctx} {lo k : Nat} {v : String}
    (h : CtxDom C lo) (hk : lo < k) : CtxDom (C.insert k v) lo := by
  intro k' v' h'
  by_cases hkk : k' = k
  · exact hkk ▸ hk
  · exact h k' v' (by simpa [Ctx.insert, hkk] using h')

theorem CtxDom.lookup_none {C : Ctx} {lo k : Nat} (h : CtxDom C lo) (hk : k ≤ lo) :
    C k = none := by
  cases hcv : C k with
  | none => rfl
  | some v => exact absurd (h k v hcv) (by omega)

theorem intercalate_singleton (s a : String) : String.intercalate s [a] = a := rfl

/-- Finalizing a builder whose post-context is still empty (as the loop
maintains for every open builder) against a map whose keys all exceed the
post-context window adds nothing: the record's context is exactly the
accumulated pre-context followed by the matched line. -/
theorem finalizeRg_high {h' t1 : String} {P : List String} {n1 : Nat} {C : Ctx}
    (hn : n1 + CTX_LINES < U16_MOD) (hC : CtxDom C (n1 + CTX_LINES)) :
    finalizeRg (some ⟨h', n1, t1, P, []⟩) C =
      [⟨h', n1, t1, String.intercalate "\n" (P ++ [t1])⟩] := by
  have hc4 : CTX_LINES = 4 := rfl
  rw [hc4] at hn hC
  have hlo : (n1 + 1) % U16_MOD = n1 + 1 := Nat.mod_eq_of_lt (by omega)
  have hhi : (n1 + 4) % U16_MOD = n1 + 4 := Nat.mod_eq_of_lt hn
  have hwin : (rangeIncl (n1 + 1) (n1 + 4)).filterMap C = [] := by
    rw [List.filterMap_eq_nil_iff]
    intro k hk
    exact hC.lookup_none (mem_rangeIncl_le hk)
  simp only [finalizeRg, RgItemBuilder.add_post_context, RgItemBuilder.build, hc4]
  rw [hlo, hhi, if_pos (by omega)]
  simp [hwin]

/-- Step lemma: a context line inserts into the context map. -/
theorem parseRgLoop_ctxLine {l : String} {n : Nat} {t : String}
    (hcl : classify l = .ctxLine n t) (rest : List String) (f : String) (C : Ctx)
    (b : Option RgItemBuilder) (res : List RgItem) :
    parseRgLoop (l :: rest) f C b res = parseRgLoop rest f (C.insert n t) b res := by
  simp only [parseRgLoop]
  rw [hcl]

/-- Step lemma: a match line inserts, finalizes any open builder against the
updated map, and opens a new builder with pre-context from the updated map. -/
theorem parseRgLoop_matchLine {l : String} {n : Nat} {t : String}
    (hcl : classify l = .matchLine n t) (rest : List String) (f : String) (C : Ctx)
    (b : Option RgItemBuilder) (res : List RgItem) :
    parseRgLoop (l :: rest) f C b res =
      parseRgLoop rest f (C.insert n t)
        (some ((RgItem.builder f n t).add_pre_context (C.insert n t)))
        (res ++ finalizeRg b (C.insert n t)) := by
  simp only [parseRgLoop]
  rw [hcl]

/-- Step lemma: a header line replaces the current file. -/
theorem parseRgLoop_header {l : String} (hcl : classify l = .header)
    (rest : List String) (f : String) (C : Ctx) (b : Option RgItemBuilder)
    (res : List RgItem) :
    parseRgLoop (l :: rest) f C b res = parseRgLoop rest l C b res := by
  simp only [parseRgLoop]
  rw [hcl]

/-- Step lemma: a blank line clears the context map. -/
theorem parseRgLoop_blank {l : String} (hcl : classify l = .blank)
    (rest : List String) (f : String) (C : Ctx) (b : Option RgItemBuilder)
    (res : List RgItem) :
    parseRgLoop (l :: rest) f C b res = parseRgLoop rest f Ctx.empty b res := by
  simp only [parseRgLoop]
  rw [hcl]

/-- Step lemma: a malformed line aborts the loop with its error message. -/
theorem parseRgLoop_err {l m : String} (hcl : classify l = .err m)
    (rest : List String) (f : String) (C : Ctx) (b : Option RgItemBuilder)
    (res : List RgItem) :
    parseRgLoop (l :: rest) f C b res = .error m := by
  simp only [parseRgLoop]
  rw [hcl]

/-- Grep-loop step lemma for context lines. -/
theorem parseGrepLoop_ctxLine {l : String} {n : Nat} {t : String}
    (hcl : classify l = .ctxLine n t) (rest : List String) (f : String) (C : Ctx)
    (b : Option GrepItemBuilder) (res : List GrepItem) :
    parseGrepLoop (l :: rest) f C b res = parseGrepLoop rest f (C.insert n t) b res := by
  simp only [parseGrepLoop]
  rw [hcl]

/-- Grep-loop step lemma for match lines. -/
theorem parseGrepLoop_matchLine {l : String} {n : Nat} {t : String}
    (hcl : classify l = .matchLine n t) (rest : List String) (f : String) (C : Ctx)
    (b : Option GrepItemBuilder) (res : List GrepItem) :
    parseGrepLoop (l :: rest) f C b res =
      parseGrepLoop rest f (C.insert n t)
        (some ((GrepItem.builder f n t).add_pre_context (C.insert n t)))
        (res ++ finalizeGrep b (C.insert n t)) := by
  simp only [parseGrepLoop]
  rw [hcl]

/-- Grep-loop step lemma for header lines. -/
theorem parseGrepLoop_header {l : String} (hcl : classify l = .header)
    (rest : List String) (f : String) (C : Ctx) (b : Option GrepItemBuilder)
    (res : List GrepItem) :
    parseGrepLoop (l :: rest) f C b res = parseGrepLoop rest l C b res := by
  simp only [parseGrepLoop]
  rw [hcl]

/-- Grep-loop step lemma for blank lines. -/
theorem parseGrepLoop_blank {l : String} (hcl : classify l = .blank)
    (rest : List String) (f : String) (C : Ctx) (b : Option GrepItemBuilder)
    (res : List GrepItem) :
    parseGrepLoop (l :: rest) f C b res = parseGrepLoop rest f Ctx.empty b res := by
  simp only [parseGrepLoop]
  rw [hcl]

/-- Grep-loop step lemma for malformed lines. -/
theorem parseGrepLoop_err {l m : String} (hcl : classify l = .err m)
    (rest : List String) (f : String) (C : Ctx) (b : Option GrepItemBuilder)
    (res : List GrepItem) :
    parseGrepLoop (l :: rest) f C b res = .error m := by
  simp only [parseGrepLoop]
  rw [hcl]

/-- Once all remaining lines are context or match lines, the loop cannot fail
and only appends records to the accumulated results. -/
theorem parseRgLoop_appends (lines : List String) :
    ∀ (f : String) (C : Ctx) (b : Option RgItemBuilder) (res : List RgItem),
    (∀ ℓ ∈ lines, ∃ n t, classify ℓ = .ctxLine n t ∨ classify ℓ = .matchLine n t) →
    ∃ tail, parseRgLoop lines f C b res = .ok (res ++ tail) := by
  induction lines with
  | nil =>
    intro f C b res _
    exact ⟨finalizeRg b C, rfl⟩
  | cons l rest ih =>
    intro f C b res hall
    obtain ⟨n, t, hcl⟩ := hall l (List.mem_cons_self l rest)
    have hrest : ∀ ℓ ∈ rest, ∃ n t, classify ℓ = .ctxLine n t ∨ classify ℓ = .matchLine n t :=
      fun ℓ hℓ => hall ℓ (List.mem_cons_of_mem l hℓ)
    cases hcl with
    | inl h =>
      rw [parseRgLoop_ctxLine h]
      exact ih f (C.insert n t) b res hrest
    | inr h =>
      rw [parseRgLoop_matchLine h]
      obtain ⟨tail, htail⟩ :=
        ih f (C.insert n t)
          (some ((RgItem.builder f n t).add_pre_context (C.insert n t)))
          (res ++ finalizeRg b (C.insert n t)) hrest
      exact ⟨finalizeRg b (C.insert n t) ++ tail, by rw [htail, List.append_assoc]⟩

/-- Running the loop on a block of context/match lines whose line numbers all
exceed `n1 + CTX_LINES`, with an open builder for the line-`n1` match (its
pre-context `P` already accumulated, its post-context still empty) and no
accumulated results, succeeds and yields that match as the first record with
context exactly `P` followed by the matched line — no line of the block
enters its post-context. -/
theorem parseRgLoop_isolated (n1 : Nat) (t1 hh : String) (P : List String)
    (hn : n1 + CTX_LINES < U16_MOD) (lines : List String) :
    ∀ (f : String) (C : Ctx),
    CtxDom C (n1 + CTX_LINES) →
    (∀ ℓ ∈ lines, ∃ n t,
      (classify ℓ = .ctxLine n t ∨ classify ℓ = .matchLine n t) ∧ n1 + CTX_LINES < n) →
    ∃ tail, parseRgLoop lines f C (some ⟨hh, n1, t1, P, []⟩) [] =
      .ok (⟨hh, n1, t1, String.intercalate "\n" (P ++ [t1])⟩ :: tail) := by
  induction lines with
  | nil =>
    intro f C hC _
    refine ⟨[], ?_⟩
    show Except.ok ([] ++ finalizeRg (some ⟨hh, n1, t1, P, []⟩) C) = _
    rw [finalizeRg_high hn hC]
    rfl
  | cons l rest ih =>
    intro f C hC hall
    obtain ⟨n, t, hcl, hgt⟩ := hall l (List.mem_cons_self l rest)
    cases hcl with
    | inl h =>
      rw [parseRgLoop_ctxLine h]
      exact ih f (C.insert n t) (hC.insert hgt)
        fun ℓ hℓ => hall ℓ (List.mem_cons_of_mem l hℓ)
    | inr h =>
      rw [parseRgLoop_matchLine h]
      rw [show ([] : List RgItem) ++ finalizeRg (some ⟨hh, n1, t1, P, []⟩) (C.insert n t) =
            [⟨hh, n1, t1, String.intercalate "\n" (P ++ [t1])⟩] by
          rw [List.nil_append, finalizeRg_high hn (hC.insert hgt)]]
      obtain ⟨tail, htail⟩ :=
        parseRgLoop_appends rest f (C.insert n t)
          (some ((RgItem.builder f n t).add_pre_context (C.insert n t)))
          [⟨hh, n1, t1, String.intercalate "\n" (P ++ [t1])⟩]
          fun ℓ hℓ => (hall ℓ (List.mem_cons_of_mem l hℓ)).imp
            fun n' h' => h'.imp fun t' h'' => h''.1
      exact ⟨tail, htail⟩

/-! ### Claims -/

/-- C1: last delivery wins. Deliveries are consumed in arrival order and each
one unconditionally replaces the displayed list via `handle_results`, with no
sequence-stamping or discarding; so when submission B's results arrive before
submission A's, the displayed list after both deliveries is A's result set. -/
theorem C1_last_delivery_wins (s : AppState) (resA resB : List RgItem) :
    (applyDeliveries s [resB, resA]).results = resA ∧
    ∀ res : List RgItem, (s.handle_results res).results = res := by
  exact ⟨rfl, fun _ => rfl⟩

/-- C2: parser round-trip. For the block with file `a.rs`, context lines 8
and 9, the match line `10:fn foo()` and context lines 11 and 12, the parser
yields exactly one record whose context is the texts of lines 8, 9, 10, 11,
12 joined by newlines in that order. -/
theorem C2_parser_round_trip :
    parseRg "a.rs\n8-l8\n9-l9\n10:fn foo()\n11-l11\n12-l12" =
      .ok [⟨"a.rs", 10, "fn foo()", "l8\nl9\nfn foo()\nl11\nl12"⟩] ∧
    String.intercalate "\n" ["l8", "l9", "fn foo()", "l11", "l12"] =
      "l8\nl9\nfn foo()\nl11\nl12" := by
  constructor
  · decide
  · rfl

/-- C5: multi-match single block. For consecutive match lines 5 and 6 with no
blank line between them, each record includes the other matched line as
context: match 5's record is `m5\nm6` (line 6's text in its post-context) and
match 6's record is `m5\nm6` (line 5's text in its pre-context). -/
theorem C5_multi_match_single_block :
    parseRg "a.rs\n5:m5\n6:m6" =
      .ok [⟨"a.rs", 5, "m5", "m5\nm6"⟩, ⟨"a.rs", 6, "m6", "m5\nm6"⟩] ∧
    splitNl "m5\nm6" = ["m5", "m6"] := by
  decide

/-- C6: the claim says the post-context window computation near the top of
the `u16` range does not overflow; in the source `add_post_context` computes
`line_number + 1 ..= line_number + CTX_LINES` in `u16`, and at line number
65535 the bound `65535 + CTX_LINES` exceeds `u16::MAX` (second conjunct), so
the addition overflows — panicking under debug assertions and wrapping in
release, where the window becomes `0 ..= 3` and the text of line 0 is pulled
into the post-context of the line-65535 match (first conjunct). -/
theorem C6_post_context_window_overflows :
    parseRg "a.rs\n0-zero\n65535:x" = .ok [⟨"a.rs", 65535, "x", "x\nzero"⟩] ∧
    U16_MOD ≤ 65535 + CTX_LINES := by
  decide

/-- C8: empty query. For every possible subprocess outcome, submitting the
empty query returns the empty result list with the subprocess expression
never reached (first component `false`): the result is synchronous and
independent of the external search tool. -/
theorem C8_empty_query (o : SpawnOutcome) :
    executeRg "" o = (false, .ok []) := by
  rfl

/-- C9: wrap-around navigation. In any state with a non-empty result list,
move-down from the last index wraps the selection to 0 and move-up from
index 0 wraps it to the last index. -/
theorem C9_wraparound_navigation (s : AppState) (_hne : s.results ≠ []) :
    (s.selected = some (s.results.length - 1) → s.moveDown.selected = some 0) ∧
    (s.selected = some 0 → s.moveUp.selected = some (s.results.length - 1)) := by
  constructor
  · intro h
    simp [AppState.moveDown, h]
  · intro h
    simp [AppState.moveUp, h]

/-- C9 witness: with a concrete 5-element list, move-down from index 4 wraps
to 0 and move-up from index 0 wraps to 4. -/
theorem C9_wraparound_navigation_witness :
    (AppState.mk "" fiveItems (some 4) false).moveDown.selected = some 0 ∧
    (AppState.mk "" fiveItems (some 0) false).moveUp.selected = some 4 := by
  constructor
  · exact (C9_wraparound_navigation ⟨"", fiveItems, some 4, false⟩ (by decide)).1 (by decide)
  · have h := (C9_wraparound_navigation ⟨"", fiveItems, some 0, false⟩ (by decide)).2 rfl
    simpa [fiveItems] using h

/-- C4 counterexample: the selection-index invariant fails on a reachable
state. From the initial state (empty list, no selection), one move-down is a
reachable step; the `map_or` default selects index 0 while the result list is
still empty, so a selection is present that is not `< length`. -/
theorem C4_counterexample :
    Reachable AppState.init.moveDown ∧
    AppState.init.moveDown.selected = some 0 ∧
    AppState.init.moveDown.results = [] ∧
    ¬ (0 < AppState.init.moveDown.results.length) := by
  refine ⟨Reachable.down Reachable.init, ?_, ?_, ?_⟩ <;> decide

/-- C4 amended: when every navigation step is performed while the result list
is non-empty (the spec itself carves out navigation on an empty list as a
special "index 0" case, and in the source it underflows `results.len() - 1`),
every reachable state keeps a present selection strictly below the list
length; and replacing the list always yields the new list with selection 0
when non-empty and none when empty. -/
theorem C4_selection_invariant (s : AppState) (hr : GuardedReachable s) :
    (∀ i, s.selected = some i → i < s.results.length) ∧
    (∀ l : List RgItem, (s.handle_results l).results = l ∧
      (s.handle_results l).selected = if l.isEmpty then none else some 0) := by
  refine ⟨?_, fun l => ⟨rfl, rfl⟩⟩
  induction hr with
  | init =>
    intro i hi
    simp [AppState.init] at hi
  | up hs hne ih =>
    intro i hi
    rename_i s'
    have hpos : 0 < s'.results.length := List.length_pos.mpr hne
    simp only [AppState.moveUp] at hi ⊢
    cases hsel : s'.selected with
    | none => simp [hsel] at hi; omega
    | some k =>
      have hk := ih k hsel
      simp only [hsel] at hi
      by_cases hk0 : k = 0
      · simp [hk0] at hi; omega
      · simp [hk0] at hi; omega
  | down hs hne ih =>
    intro i hi
    rename_i s'
    have hpos : 0 < s'.results.length := List.length_pos.mpr hne
    simp only [AppState.moveDown] at hi ⊢
    cases hsel : s'.selected with
    | none => simp [hsel] at hi; omega
    | some k =>
      have hk := ih k hsel
      simp only [hsel] at hi
      by_cases hkt : s'.results.length - 1 ≤ k
      · simp [hkt] at hi; omega
      · simp [hkt] at hi; omega
  | replace l hs ih =>
    intro i hi
    rename_i s'
    simp only [AppState.handle_results] at hi ⊢
    cases l with
    | nil => simp at hi
    | cons x xs => simp at hi; simp [← hi]

/-- C4 witness: replacing the empty initial list with a one-element list and
moving down (a guarded navigation, the list being non-empty) reaches a state
whose selection 0 is strictly below the list length. -/
theorem C4_selection_invariant_witness :
    GuardedReachable ((AppState.init.handle_results [sampleItem 1]).moveDown) ∧
    ((AppState.init.handle_results [sampleItem 1]).moveDown).selected = some 0 ∧
    0 < ((AppState.init.handle_results [sampleItem 1]).moveDown).results.length := by
  have hr : GuardedReachable ((AppState.init.handle_results [sampleItem 1]).moveDown) :=
    GuardedReachable.down (GuardedReachable.replace [sampleItem 1] GuardedReachable.init)
      (by decide)
  exact ⟨hr, by decide, (C4_selection_invariant _ hr).1 0 (by decide)⟩

/-- C7 counterexample: when the spawn fails with NotFound, `execute_rg`
produces the error "ripgrep is not installed", but the spawned task sends
nothing, the application state after the failure is exactly the prior state,
the rendered frame is exactly the prior frame, and no displayed string is
the error message — the error is not surfaced to the user. -/
theorem C7_counterexample :
    executeRg "xy" SpawnOutcome.notFound = (true, .error "ripgrep is not installed") ∧
    applyDeliveries priorState (taskDeliveries "xy" SpawnOutcome.notFound) = priorState ∧
    (applyDeliveries priorState (taskDeliveries "xy" SpawnOutcome.notFound)).renderData =
      priorState.renderData ∧
    "ripgrep is not installed" ∉
      (applyDeliveries priorState (taskDeliveries "xy" SpawnOutcome.notFound)).renderData.strings := by
  decide

/-- C7 amended: for any non-empty query whose spawn fails with NotFound,
`execute_rg` returns the error "ripgrep is not installed"; the spawned task
then sends nothing on the channel, so the previously displayed result list is
left unchanged and the event loop never receives a delivery from this search
— but the error value is dropped by the task and the user-visible render data
is completely unchanged (no status message is displayed). -/
theorem C7_missing_binary (s : AppState) (q : String) (hq : q ≠ "") :
    executeRg q SpawnOutcome.notFound = (true, .error "ripgrep is not installed") ∧
    taskDeliveries q SpawnOutcome.notFound = [] ∧
    applyDeliveries s (taskDeliveries q SpawnOutcome.notFound) = s ∧
    (applyDeliveries s (taskDeliveries q SpawnOutcome.notFound)).renderData =
      s.renderData := by
  have h1 : executeRg q SpawnOutcome.notFound =
      (true, .error "ripgrep is not installed") := by
    simp [executeRg, hq]
  have h2 : taskDeliveries q SpawnOutcome.notFound = [] := by
    simp [taskDeliveries, h1]
  exact ⟨h1, h2, by simp [h2, applyDeliveries], by simp [h2, applyDeliveries]⟩

/-- C7 witness: the amended behaviour at the concrete query "xy" and the
initial application state. -/
theorem C7_missing_binary_witness :
    executeRg "xy" SpawnOutcome.notFound = (true, .error "ripgrep is not installed") ∧
    applyDeliveries AppState.init (taskDeliveries "xy" SpawnOutcome.notFound) =
      AppState.init := by
  have h := C7_missing_binary AppState.init "xy" (by decide)
  exact ⟨h.1, h.2.2.1⟩

/-- C3 counterexample: two match lines separated by a blank line CAN share
context lines. For the input with match `10:m1`, a blank line, context
`11-c11` and match `12:m2`, the first match is finalized only when the second
match line arrives, against the context map of the SECOND block; its
post-context window `11 ..= 14` picks up `c11` and `m2`, lines of the second
match's block, and both records carry the line `c11` (and `m2`) in their
context — refuting "share no context lines … regardless of the line numbers
appearing in that later block". -/
theorem C3_counterexample :
    parseRg "a.rs\n10:m1\n\n11-c11\n12:m2" =
      .ok [⟨"a.rs", 10, "m1", "m1\nc11\nm2"⟩, ⟨"a.rs", 12, "m2", "c11\nm2"⟩] ∧
    splitNl "m1\nc11\nm2" = ["m1", "c11", "m2"] ∧
    splitNl "c11\nm2" = ["c11", "m2"] := by
  decide

/-- C3 amended: after a blank line the context map is cleared, so lines seen
before the blank never enter a later match's context; and the post-context
of a match before the blank stays free of the later block's lines exactly
when every line number in that block exceeds the match's line number plus
`CTX_LINES` (without that proviso, later-block lines numbered inside the
window do leak into the post-context, as the counterexample shows). Stated
for a first block ending in its match line, over an arbitrary context map
`C` accumulated from any context lines preceding that match. First
conjunct: whenever the second block's line numbers all exceed
`n1 + CTX_LINES`, the first match's record has context exactly its
first-block pre-context (drawn from `C` over the window
`n1 - CTX_LINES .. n1`) followed by the matched line — its post-context is
empty, so it contains no line of the second match's block. Second conjunct:
from the blank line on, the parse does not depend on the first block's
context map at all (the map is cleared) — for any open builder and any
accumulated results, two runs differing only in that map coincide, so the
second match's context draws nothing from the first block. -/
theorem C3_block_boundary (f ℓ1 t1 : String) (n1 : Nat) (C : Ctx) (block2 : List String)
    (h1 : classify ℓ1 = .matchLine n1 t1)
    (hn : n1 + CTX_LINES < U16_MOD)
    (hb : ∀ ℓ ∈ block2, ∃ n t,
      (classify ℓ = .ctxLine n t ∨ classify ℓ = .matchLine n t) ∧ n1 + CTX_LINES < n) :
    firstResult (parseRgLoop (ℓ1 :: "" :: block2) f C none []) =
      some ⟨f, n1, t1,
        String.intercalate "\n"
          ((rangeList (n1 - CTX_LINES) n1).filterMap (C.insert n1 t1) ++ [t1])⟩ ∧
    ∀ (C₁ C₂ : Ctx) (b : Option RgItemBuilder) (res : List RgItem),
      parseRgLoop ("" :: block2) f C₁ b res = parseRgLoop ("" :: block2) f C₂ b res := by
  constructor
  · rw [parseRgLoop_matchLine h1]
    have hb1 : (RgItem.builder f n1 t1).add_pre_context (C.insert n1 t1) =
        (⟨f, n1, t1,
          (rangeList (n1 - CTX_LINES) n1).filterMap (C.insert n1 t1), []⟩ :
            RgItemBuilder) := by
      simp [RgItem.builder, RgItemBuilder.add_pre_context]
    rw [hb1]
    rw [show ([] : List RgItem) ++ finalizeRg none (C.insert n1 t1) = [] from rfl]
    rw [parseRgLoop_blank (by decide : classify "" = .blank)]
    obtain ⟨tail, htail⟩ :=
      parseRgLoop_isolated n1 t1 f
        ((rangeList (n1 - CTX_LINES) n1).filterMap (C.insert n1 t1))
        hn block2 f Ctx.empty (CtxDom.empty _) hb
    rw [htail]
    rfl
  · intro C₁ C₂ b res
    rw [parseRgLoop_blank (by decide : classify "" = .blank),
      parseRgLoop_blank (by decide : classify "" = .blank)]

/-- C3 witness: the amended statement at a concrete input whose first block
holds context line 8 (`c8`) before the line-10 match and whose second block
holds context line 20 and match line 21, both above 10 + CTX_LINES: the
line-10 match's record is `c8\nm1` — its first-block pre-context plus the
matched line, with nothing from the second block — and the parse after the
blank line is the same whether the first block's context map is present or
cleared. -/
theorem C3_block_boundary_witness :
    classify "10:m1" = LineKind.matchLine 10 "m1" ∧
    10 + CTX_LINES < U16_MOD ∧
    firstResult (parseRgLoop ["10:m1", "", "20-c20", "21:m2"] "a.rs"
        (Ctx.empty.insert 8 "c8") none []) =
      some ⟨"a.rs", 10, "m1", "c8\nm1"⟩ ∧
    parseRgLoop ["", "20-c20", "21:m2"] "a.rs" (Ctx.empty.insert 8 "c8") none [] =
      parseRgLoop ["", "20-c20", "21:m2"] "a.rs" Ctx.empty none [] := by
  have hb : ∀ ℓ ∈ ["20-c20", "21:m2"], ∃ n t,
      (classify ℓ = LineKind.ctxLine n t ∨ classify ℓ = LineKind.matchLine n t) ∧
        10 + CTX_LINES < n := by
    intro ℓ hl
    simp only [List.mem_cons, List.not_mem_nil, or_false] at hl
    rcases hl with rfl | rfl
    · exact ⟨20, "c20", Or.inl (by decide), by decide⟩
    · exact ⟨21, "m2", Or.inr (by decide), by decide⟩
  have h := C3_block_boundary "a.rs" "10:m1" "m1" 10 (Ctx.empty.insert 8 "c8")
    ["20-c20", "21:m2"] (by decide) (by decide) hb
  refine ⟨by decide, by decide, ?_, h.2 (Ctx.empty.insert 8 "c8") Ctx.empty none []⟩
  rw [h.1]
  decide

/-- Building after renaming equals renaming after building. -/
theorem build_conv (b : RgItemBuilder) :
    (rgBuilderToGrepBuilder b).build = rgItemToGrepItem b.build := rfl

/-- Pre-context accumulation commutes with the field renaming. -/
theorem add_pre_conv (b : RgItemBuilder) (C : Ctx) :
    (rgBuilderToGrepBuilder b).add_pre_context C =
      rgBuilderToGrepBuilder (b.add_pre_context C) := rfl

/-- Post-context accumulation commutes with the field renaming. -/
theorem add_post_conv (b : RgItemBuilder) (C : Ctx) :
    (rgBuilderToGrepBuilder b).add_post_context C =
      rgBuilderToGrepBuilder (b.add_post_context C) := rfl

/-- Fresh builders of the two modules agree up to the field renaming. -/
theorem builder_conv (f : String) (n : Nat) (t : String) :
    GrepItem.builder f n t = rgBuilderToGrepBuilder (RgItem.builder f n t) := rfl

/-- Finalization commutes with the field renamings. -/
theorem finalize_conv (b : Option RgItemBuilder) (C : Ctx) :
    finalizeGrep (b.map rgBuilderToGrepBuilder) C =
      (finalizeRg b C).map rgItemToGrepItem := by
  cases b <;> rfl

/-- The two parsing loops run in lock-step: on every input, from any pair of
states related by the field renamings, they produce the same outcome. -/
theorem parseLoop_equiv (lines : List String) :
    ∀ (f : String) (C : Ctx) (b : Option RgItemBuilder) (res : List RgItem),
    parseGrepLoop lines f C (b.map rgBuilderToGrepBuilder) (res.map rgItemToGrepItem) =
      (parseRgLoop lines f C b res).map (List.map rgItemToGrepItem) := by
  induction lines with
  | nil =>
    intro f C b res
    show Except.ok _ = Except.map _ (Except.ok _)
    rw [Except.map]
    rw [finalize_conv, ← List.map_append]
  | cons l rest ih =>
    intro f C b res
    cases hcl : classify l with
    | ctxLine n t =>
      rw [parseRgLoop_ctxLine hcl, parseGrepLoop_ctxLine hcl]
      exact ih f (C.insert n t) b res
    | matchLine n t =>
      rw [parseRgLoop_matchLine hcl, parseGrepLoop_matchLine hcl]
      rw [builder_conv, add_pre_conv, finalize_conv, ← List.map_append]
      rw [show some (rgBuilderToGrepBuilder ((RgItem.builder f n t).add_pre_context
            (C.insert n t))) =
          Option.map rgBuilderToGrepBuilder
            (some ((RgItem.builder f n t).add_pre_context (C.insert n t))) from rfl]
      exact ih f (C.insert n t) (some ((RgItem.builder f n t).add_pre_context (C.insert n t)))
        (res ++ finalizeRg b (C.insert n t))
    | header =>
      rw [parseRgLoop_header hcl, parseGrepLoop_header hcl]
      exact ih l C b res
    | blank =>
      rw [parseRgLoop_blank hcl, parseGrepLoop_blank hcl]
      exact ih f Ctx.empty b res
    | err m =>
      rw [parseRgLoop_err hcl, parseGrepLoop_err hcl]
      rfl

/-- C10: the two parser implementations are equivalent. On every subprocess
output text, the parsing loop of `execute_rg` (`src/app.rs`) and the parsing
loop of `GrepPicker::handle_input_change` (`src/pickers/grep.rs`) produce the
same outcome: the same ordered records up to the field-for-field renaming
`rgItemToGrepItem` (equal filename, line number, matched text and context),
and the same error on exactly the same failing inputs. -/
theorem C10_parser_equivalence (stdout : String) :
    parseGrep stdout = Except.map (List.map rgItemToGrepItem) (parseRg stdout) := by
  unfold parseGrep parseRg
  cases splitNl stdout with
  | nil => rfl
  | cons f rest =>
    have h := parseLoop_equiv rest f Ctx.empty none []
    simpa using h

end Binocular
